import Mathlib

/-!
Shallow embedding of the try-on session orchestration code of the
vton-single-item-backend repository: the Supabase data-access layer
(supabaseService), the Pixazo webhook handlers (webhookController plus the
serverless webhook app), the BullMQ worker (tryOnWorker), the Pixazo
polling client (pixazoService) and the try-on HTTP controller
(tryOnController).  JavaScript objects become structures, the database
becomes an explicit record of lists, and the handlers become pure
functions from inputs and environment outcomes to an outcome and the
updated database.  Network calls (axios) are modelled by an explicit
fetch function passed as a parameter; wall-clock timestamps by a Nat
passed as a parameter.
-/

namespace Vton

/-- Status values stored in the try_on_history table.  The Joi schema in
tryOnController restricts them to queued, processing, success, failed. -/
inductive SessionStatus
  | queued
  | processing
  | success
  | failed
deriving DecidableEq, Repr

/-- One row of the try_on_history table (the fields the core reads and
writes; timestamps are Nat). -/
structure Session where
  id : String
  user_id : String
  garment_id : String
  original_user_image_url : Option String
  status : SessionStatus
  result_image_url : Option String
  error_message : Option String
  updated_at : Nat
deriving DecidableEq, Repr

/-- One row of the pixazo_jobs table, as inserted by linkJobToSession
(job_id, session_id, status; the other columns are not read by the
embedded code). -/
structure JobLink where
  job_id : String
  session_id : String
  status : String
deriving DecidableEq, Repr

/-- The persisted state the embedded handlers touch. -/
structure Db where
  sessions : List Session
  jobs : List JobLink
deriving DecidableEq, Repr

/-- A partial update object as passed to updateTryOnSession: a field that
is none is absent from the JS update object; a present field carries the
new (possibly null) value. -/
structure UpdateData where
  status : Option SessionStatus := none
  result_image_url : Option (Option String) := none
  error_message : Option (Option String) := none
  updated_at : Option Nat := none
deriving DecidableEq, Repr

/-- JavaScript truthiness of an optional string: undefined, null and the
empty string are falsy. -/
def truthy : Option String → Bool
  | none => false
  | some s => decide (s ≠ "")

/-- JavaScript a or-else b on optional strings (the logical-or operator
returns a when a is truthy, b otherwise). -/
def jsOr (a b : Option String) : Option String :=
  if truthy a then a else b

/-- String interpolation of a possibly-undefined JS value. -/
def showOptStr : Option String → String
  | none => "undefined"
  | some s => s

/-- Apply an update object to a row: present fields overwrite, absent
fields are kept. -/
def applyUpdate (u : UpdateData) (s : Session) : Session :=
  { s with
    status := u.status.getD s.status
    result_image_url :=
      match u.result_image_url with
      | some v => v
      | none => s.result_image_url
    error_message :=
      match u.error_message with
      | some v => v
      | none => s.error_message
    updated_at := u.updated_at.getD s.updated_at }

/-- updateTryOnSession (supabaseService): an UNCONDITIONAL update filtered
only by id — update(updateData).eq(id, sessionId) — with no predicate on
the current status and no version token. -/
def updateTryOnSession (sessionId : String) (u : UpdateData)
    (l : List Session) : List Session :=
  l.map (fun s => if s.id = sessionId then applyUpdate u s else s)

/-- Row lookup by primary key (first matching row), as done by the
single-row selects. -/
def findSession : List Session → String → Option Session
  | [], _ => none
  | s :: t, x => if s.id = x then some s else findSession t x

/-- linkJobToSession (supabaseService): a plain insert into pixazo_jobs.
The status column defaults to queued and is overridden when the caller
passes one in additionalData.  No uniqueness check on job_id is made by
the code. -/
def linkJobToSession (sessionId jobId : String) (extraStatus : Option String)
    (jobs : List JobLink) : List JobLink :=
  jobs ++ [{ job_id := jobId, session_id := sessionId,
             status := extraStatus.getD "queued" }]

/-- The single-row select of pixazo_jobs by job_id: single() succeeds
exactly when one row matches. -/
def uniqueLink (jobs : List JobLink) (j : String) : Option JobLink :=
  match jobs.filter (fun l => l.job_id = j) with
  | [l] => some l
  | _ => none

/-- getTryOnSessionByJobId (supabaseService): resolve the job link, then
the inner-joined try_on_history row; any failure (no row, several rows,
missing session) yields none, which the webhook controller treats as
no-session. -/
def resolveSession (db : Db) (j : String) : Option Session :=
  (uniqueLink db.jobs j).bind (fun l => findSession db.sessions l.session_id)

/-- uploadImage (supabaseService): upload with upsert true, then return
the bucket public URL, a deterministic function of the storage path. -/
def uploadImage (path : String) (_buf : String) : String :=
  "https://supabase.example/storage/v1/object/public/vton-assets/" ++ path

/-- Storage path the webhook controller uses for the re-uploaded result
image of a session. -/
def resultPathFor (s : Session) : String :=
  "try-on-results/" ++ s.user_id ++ "/" ++ s.id ++ "_result.png"

/-- An inbound Pixazo webhook body.  All field aliases the spec documents
are present so that alias behaviour can be stated; the handlers read only
some of them. -/
structure CallbackData where
  job_id : Option String := none
  id : Option String := none
  jobId : Option String := none
  status : Option String := none
  state : Option String := none
  status_code : Option String := none
  result_image_url : Option String := none
  resultUrl : Option String := none
  result_url : Option String := none
  result_image_base64 : Option String := none
  error : Option String := none
  message : Option String := none
  error_message : Option String := none
deriving DecidableEq, Repr

/-- Job id extraction of handlePixazoCallback: callbackData.job_id or
callbackData.id. -/
def extractedJobId (c : CallbackData) : Option String :=
  jsOr c.job_id c.id

/-- Outcome extraction of handlePixazoCallback: callbackData.status or
callbackData.state. -/
def extractedStatus (c : CallbackData) : Option String :=
  jsOr c.status c.state

/-- Error extraction of handlePixazoCallback: callbackData.error or
callbackData.message. -/
def extractedError (c : CallbackData) : Option String :=
  jsOr c.error c.message

/-- The normalized view handlePixazoCallback builds from a webhook body
(its four const bindings jobId, status, resultImageUrl, errorMessage). -/
structure Signal where
  jobId : Option String
  outcome : Option String
  resultRef : Option String
  errorMsg : Option String
deriving DecidableEq, Repr

/-- Normalization performed by handlePixazoCallback, lines 43 to 46 of
webhookController.js. -/
def normalizeCallback (c : CallbackData) : Signal :=
  { jobId := extractedJobId c
    outcome := extractedStatus c
    resultRef := c.result_image_url
    errorMsg := extractedError c }

/-- The branch of handlePixazoCallback that fills the update object
(without the updated_at field, which is set up front).  fetch models the
axios download of the provider result image; on success the image is
re-uploaded and the public URL stored. -/
def webhookUpdateFields (fetch : String → Except String String)
    (sess : Session) (st r e : Option String) : UpdateData :=
  if st = some "completed" ∨ st = some "success" then
    if truthy r then
      match fetch (r.getD "") with
      | Except.ok buf =>
          { status := some SessionStatus.success
            result_image_url := some (some (uploadImage (resultPathFor sess) buf))
            error_message := some none }
      | Except.error m =>
          { status := some SessionStatus.failed
            error_message := some (some ("Failed to process result image: " ++ m)) }
    else
      { status := some SessionStatus.failed
        error_message := some (some "Job completed but no result image provided") }
  else if st = some "failed" ∨ st = some "error" then
    { status := some SessionStatus.failed
      error_message := some (some ((jsOr e (some "Job failed with unknown error")).getD "")) }
  else if st = some "processing" ∨ st = some "pending" then
    { status := some SessionStatus.processing }
  else
    { status := some SessionStatus.failed
      error_message := some (some ("Unknown job status: " ++ showOptStr st)) }

/-- The full update object of handlePixazoCallback: updated_at is always
present (set before the branch), the rest comes from the branch. -/
def computeUpdate (fetch : String → Except String String) (now : Nat)
    (sess : Session) (st r e : Option String) : UpdateData :=
  { webhookUpdateFields fetch sess st r e with updated_at := some now }

/-- What handlePixazoCallback did: threw on a missing job id, returned
without a write when no session was found, or issued one
updateTryOnSession call. -/
inductive CallbackOutcome
  | missingJobId
  | noSession (jobId : String)
  | updated (sessionId : String) (u : UpdateData)
deriving DecidableEq, Repr

/-- handlePixazoCallback (webhookController.js).  Extracts the signal,
resolves the session through the pixazo_jobs link, and applies the
computed update unconditionally.  The cleanup-queue scheduling at the end
touches no session and is omitted. -/
def handlePixazoCallback (fetch : String → Except String String) (now : Nat)
    (c : CallbackData) (db : Db) : CallbackOutcome × Db :=
  if truthy (extractedJobId c) then
    match resolveSession db ((extractedJobId c).getD "") with
    | none => (CallbackOutcome.noSession ((extractedJobId c).getD ""), db)
    | some sess =>
        let u := computeUpdate fetch now sess (extractedStatus c)
          c.result_image_url (extractedError c)
        (CallbackOutcome.updated sess.id u,
         { db with sessions := updateTryOnSession sess.id u db.sessions })
  else
    (CallbackOutcome.missingJobId, db)

/-- validateWebhookSignature (webhookController.js): validation is
currently skipped and the function always returns true. -/
def validateWebhookSignature (_payload _signature : String) : Bool :=
  true

/-- HTTP outcome of the webhook route. -/
structure RouteResult where
  httpStatus : Nat
  success : Bool
deriving DecidableEq, Repr

/-- POST /api/webhooks/pixazo (routes/webhook.js): optional signature
check, then handlePixazoCallback; a thrown error is caught and still
answered with 200 to prevent provider retry loops. -/
def webhookRoute (signature : Option String) (rawBody : String)
    (fetch : String → Except String String) (now : Nat)
    (c : CallbackData) (db : Db) : RouteResult × Db :=
  match signature with
  | some sig =>
      if validateWebhookSignature rawBody sig then
        match handlePixazoCallback fetch now c db with
        | (CallbackOutcome.missingJobId, db2) =>
            ({ httpStatus := 200, success := false }, db2)
        | (_, db2) => ({ httpStatus := 200, success := true }, db2)
      else ({ httpStatus := 401, success := false }, db)
  | none =>
      match handlePixazoCallback fetch now c db with
      | (CallbackOutcome.missingJobId, db2) =>
          ({ httpStatus := 200, success := false }, db2)
      | (_, db2) => ({ httpStatus := 200, success := true }, db2)

/-- HTTP outcome of the serverless webhook app. -/
structure Handler7Result where
  httpStatus : Nat
  code : Option String
deriving DecidableEq, Repr

/-- The switch statement of the serverless webhook app (api/webhook.js
style file): returns the status to store, the error message and the
result URL.  A success body may carry result_image_url or
result_image_base64; when it carries neither, the result URL stays null
while the status is still success.  Unknown statuses default to
processing. -/
def compute7 (body : CallbackData) : SessionStatus × Option String × Option String :=
  if body.status = some "completed" ∨ body.status = some "success" then
    let resUrl :=
      if truthy body.result_image_url then body.result_image_url
      else if truthy body.result_image_base64 then
        some ("data:image/png;base64," ++ body.result_image_base64.getD "")
      else none
    (SessionStatus.success, none, resUrl)
  else if body.status = some "failed" ∨ body.status = some "error" then
    (SessionStatus.failed,
     some ((jsOr (jsOr body.error body.message) (some "Processing failed")).getD ""),
     none)
  else if body.status = some "processing" ∨ body.status = some "pending" then
    (SessionStatus.processing, none, none)
  else
    (SessionStatus.processing, none, none)

/-- The POST /pixazo handler of the serverless webhook app.  It never
consults the job link table: the session is taken from the session_id
query parameter when present (as a bare placeholder record), otherwise no
database write happens at all.  The update always carries all three
fields, nulls included. -/
def pixazoWebhookApp (now : Nat) (querySessionId : Option String)
    (body : CallbackData) (db : Db) : Handler7Result × Db :=
  if truthy body.id then
    let st := compute7 body
    let u : UpdateData :=
      { status := some st.1, result_image_url := some st.2.2,
        error_message := some st.2.1, updated_at := some now }
    match (if truthy querySessionId then querySessionId else none) with
    | some sid =>
        ({ httpStatus := 200, code := none },
         { db with sessions := updateTryOnSession sid u db.sessions })
    | none => ({ httpStatus := 200, code := none }, db)
  else
    ({ httpStatus := 400, code := some "MISSING_JOB_ID" }, db)

/-- One garment row (the fields the worker reads). -/
structure Garment where
  id : String
  image_url : String
deriving DecidableEq, Repr

/-- The data of a dequeued try-on job. -/
structure JobData where
  sessionId : String
  userId : String
  garmentId : String
  originalUserImageUrl : String
  garmentImageUrl : Option String
deriving DecidableEq, Repr

/-- Outcome of the performVirtualTryOn call as the worker observes it: a
synchronously returned image buffer, a thrown error whose code property is
CALLBACK_PROCESSING (carrying the provider job id and callback URL), or
any other thrown error (carrying its message). -/
inductive ProviderOutcome
  | result (buf : String)
  | callbackStarted (jobId : String) (callbackUrl : String)
  | failure (msg : String)
deriving DecidableEq, Repr

/-- The external collaborators of one worker run: the garment lookup, the
Pixazo health check (none means healthy, some err the unhealthy message)
and the provider call outcome. -/
structure WorkerEnv where
  garment : Except String Garment
  apiHealth : Option String
  provider : ProviderOutcome
deriving Repr

/-- Return value of the worker job processor (a rejected promise is
jobFailed). -/
inductive WorkerResult
  | done (resultImageUrl : String)
  | callbackPending (jobId : String)
  | jobFailed (msg : String)
deriving DecidableEq, Repr

/-- tryOnWorker (the BullMQ try-on-queue processor).  It updates the
session to processing UNCONDITIONALLY as its very first step — it never
reads the session or checks that it is still queued — then looks up the
garment, checks API health, and calls the provider; every failure path
writes status failed with the error message; the callback branch inserts
the job link and then, separately, writes status processing again. -/
def tryOnWorker (env : WorkerEnv) (job : JobData) (db : Db) :
    WorkerResult × Db :=
  let uProcessing : UpdateData :=
    { status := some SessionStatus.processing, error_message := some none }
  let db1 : Db :=
    { db with sessions := updateTryOnSession job.sessionId uProcessing db.sessions }
  match env.garment with
  | Except.error m =>
      let msg := "Garment not found: " ++ m
      let uFail : UpdateData :=
        { status := some SessionStatus.failed, error_message := some (some msg) }
      (WorkerResult.jobFailed msg,
       { db1 with sessions := updateTryOnSession job.sessionId uFail db1.sessions })
  | Except.ok _garment =>
      match env.apiHealth with
      | some err =>
          let msg := "Pixazo API is unhealthy: " ++ err
          let uFail : UpdateData :=
            { status := some SessionStatus.failed, error_message := some (some msg) }
          (WorkerResult.jobFailed msg,
           { db1 with sessions := updateTryOnSession job.sessionId uFail db1.sessions })
      | none =>
          match env.provider with
          | ProviderOutcome.result buf =>
              let url := uploadImage
                ("try-on-results/" ++ job.userId ++ "/" ++ job.sessionId
                  ++ "_result.png") buf
              let uDone : UpdateData :=
                { status := some SessionStatus.success,
                  result_image_url := some (some url),
                  error_message := some none }
              (WorkerResult.done url,
               { db1 with sessions := updateTryOnSession job.sessionId uDone db1.sessions })
          | ProviderOutcome.callbackStarted jid _cb =>
              let db2 : Db :=
                { db1 with jobs :=
                    linkJobToSession job.sessionId jid (some "processing") db1.jobs }
              let uCb : UpdateData :=
                { status := some SessionStatus.processing,
                  error_message :=
                    some (some ("Processing via callback. Job ID: " ++ jid)) }
              (WorkerResult.callbackPending jid,
               { db2 with sessions := updateTryOnSession job.sessionId uCb db2.sessions })
          | ProviderOutcome.failure msg =>
              let uFail : UpdateData :=
                { status := some SessionStatus.failed, error_message := some (some msg) }
              (WorkerResult.jobFailed msg,
               { db1 with sessions := updateTryOnSession job.sessionId uFail db1.sessions })

/-- A status response body of the Pixazo job status endpoint, as read by
pollPixazoResult. -/
structure StatusData where
  status : Option String := none
  output_img_url : Option String := none
  result_image_url : Option String := none
  result_image_base64 : Option String := none
  error : Option String := none
  message : Option String := none
deriving DecidableEq, Repr

/-- What one poll iteration of pollPixazoResult does: return an image
buffer, throw an error, or keep polling. -/
inductive PollOutcome
  | image (buf : String)
  | thrown (msg : String)
deriving DecidableEq, Repr

/-- Hard polling ceiling of pollPixazoResult (maxWaitTime, in ms). -/
def pixazoMaxWaitMs : Nat := 300000

/-- Poll interval of pollPixazoResult (pollInterval, in ms). -/
def pixazoPollIntervalMs : Nat := 10000

/-- The timeout error pollPixazoResult throws when the ceiling is hit. -/
def timeoutMsg (jobId : String) : String :=
  "Timeout waiting for Pixazo job " ++ jobId ++ " to complete after "
    ++ toString (pixazoMaxWaitMs / 1000) ++ " seconds"

/-- One iteration body of the pollPixazoResult while loop: a terminal
provider status produces a result or a thrown error, anything else
continues the loop.  fetch models the axios download of the completed
image (failures modelled as the non-retryable class, which the inner
catch rethrows). -/
def pollStep (fetch : String → Except String String) (jobId : String)
    (sd : StatusData) : Option PollOutcome :=
  if sd.status = some "completed" ∨ sd.status = some "success" then
    let r := jsOr sd.output_img_url sd.result_image_url
    if truthy r then
      match fetch (r.getD "") with
      | Except.ok buf => some (PollOutcome.image buf)
      | Except.error m => some (PollOutcome.thrown m)
    else if truthy sd.result_image_base64 then
      some (PollOutcome.image (sd.result_image_base64.getD ""))
    else
      some (PollOutcome.thrown "Job completed but no result image found in response")
  else if sd.status = some "failed" ∨ sd.status = some "error" then
    some (PollOutcome.thrown
      ("Pixazo job " ++ jobId ++ " failed: "
        ++ (jsOr (jsOr sd.error sd.message) (some "Unknown error")).getD ""))
  else
    none

/-- The while loop of pollPixazoResult over a stream of status responses
(one per iteration; each successful GET is modelled as instantaneous, so
the loop admits maxWaitTime / pollInterval iterations before the elapsed
time reaches the ceiling). -/
def pollLoop (fetch : String → Except String String)
    (polls : Nat → StatusData) (jobId : String) :
    Nat → Nat → PollOutcome
  | _, 0 => PollOutcome.thrown (timeoutMsg jobId)
  | i, steps + 1 =>
      match pollStep fetch jobId (polls i) with
      | some out => out
      | none => pollLoop fetch polls jobId (i + 1) steps

/-- pollPixazoResult (pixazoService) with its default maxWaitTime and
pollInterval. -/
def pollPixazoResult (fetch : String → Except String String)
    (polls : Nat → StatusData) (jobId : String) : PollOutcome :=
  pollLoop fetch polls jobId 0 (pixazoMaxWaitMs / pixazoPollIntervalMs)

/-- The shape of the Pixazo submission response performVirtualTryOn
branches on: a job id (asynchronous), a direct result URL, a base64
image, a raw buffer, or anything else. -/
inductive PixazoSubmitResponse
  | asyncJob (id : String)
  | directUrl (url : String)
  | base64Img (data : String)
  | rawBuffer (data : String)
  | unexpected
deriving DecidableEq, Repr

/-- performVirtualTryOn (pixazoService).  The asynchronous branch polls
for the result; a thrown poll error reaches the outer catch as a plain
Error with no HTTP response attached, so its message is passed through
unchanged.  Buffers are modelled as strings (a base64 body stands for its
decoded buffer); the empty string is the empty buffer. -/
def performVirtualTryOn (fetch : String → Except String String)
    (polls : Nat → StatusData) (resp : PixazoSubmitResponse) :
    Except String String :=
  match resp with
  | PixazoSubmitResponse.asyncJob id =>
      match pollPixazoResult fetch polls id with
      | PollOutcome.image buf => Except.ok buf
      | PollOutcome.thrown m => Except.error m
  | PixazoSubmitResponse.directUrl url =>
      match fetch url with
      | Except.ok buf =>
          if buf = "" then Except.error "Empty result image received from Pixazo API"
          else Except.ok buf
      | Except.error m => Except.error m
  | PixazoSubmitResponse.base64Img data =>
      if data = "" then Except.error "Empty result image received from Pixazo API"
      else Except.ok data
  | PixazoSubmitResponse.rawBuffer data =>
      if data = "" then Except.error "Empty result image received from Pixazo API"
      else Except.ok data
  | PixazoSubmitResponse.unexpected =>
      Except.error "Unexpected response format from Pixazo API"

/-- How the worker classifies what performVirtualTryOn did.  Errors
thrown by this pixazoService are plain Error objects without a code
property, so the CALLBACK_PROCESSING branch of the worker is never
reached from it. -/
def providerOutcomeOf (r : Except String String) : ProviderOutcome :=
  match r with
  | Except.ok buf => ProviderOutcome.result buf
  | Except.error m => ProviderOutcome.failure m

/-- A poll response that is not terminal for pollPixazoResult: its status
is none of completed, success, failed, error (for example the provider
keeps answering processing). -/
def stillRunningPoll (sd : StatusData) : Prop :=
  sd.status ≠ some "completed" ∧ sd.status ≠ some "success" ∧
  sd.status ≠ some "failed" ∧ sd.status ≠ some "error"

/-- Request-shape facts of a createTryOnSession HTTP request, each the
outcome of one of the controller validation gates (Joi body validation,
multer file presence, mime type allow-list, size cap). -/
structure CreateReq where
  bodyValid : Bool
  hasFile : Bool
  mimetypeAllowed : Bool
  sizeOk : Bool
deriving DecidableEq, Repr

/-- Outcomes of the external calls the createTryOnSession controller
makes: garment lookup, image upload (the stored URL on success), session
insert, and what addTryOnJob would answer if it were ever reached. -/
structure CreateEnv where
  garment : Option Garment
  upload : Option String
  createOk : Bool
  enqueueOk : Bool
deriving DecidableEq, Repr

/-- An HTTP response of the controller (status plus the JSON code field
when one is set). -/
structure HttpResponse where
  status : Nat
  code : Option String
deriving DecidableEq, Repr

/-- The identifiers in scope at the addTryOnJob call of
createTryOnSession (tryOnController.js): the module-level requires and
schema constants plus the local bindings of the handler up to that point.
fileName is block-scoped to the earlier upload try block and already out
of scope there. -/
def tryOnControllerScope : List String :=
  ["require", "module", "exports", "uuidv4", "Joi", "supabase",
   "getGarmentById", "createTryOnSession", "updateTryOnSession",
   "getTryOnSessionById", "getUserTryOnHistory", "deleteTryOnSession",
   "logger", "addTryOnJob", "uploadImageToSupabase", "createTryOnSchema",
   "historyQuerySchema", "garmentsQuerySchema", "process", "req", "res",
   "userId", "userImageFile", "error", "value", "garmentId",
   "allowedMimeTypes", "maxFileSize", "garment", "sessionId",
   "uploadResult", "sessionData"]

/-- The identifiers the addTryOnJob argument object evaluates, in source
order: the shorthand properties sessionId, userId, garmentId,
originalUserImageUrl, then garment (for garment.image_url). -/
def addTryOnJobArgIdents : List String :=
  ["sessionId", "userId", "garmentId", "originalUserImageUrl", "garment"]

/-- JS evaluation of an object literal: the first property-value
identifier that is not bound in scope raises a ReferenceError. -/
def firstUnbound (scope idents : List String) : Option String :=
  idents.find? (fun n => !(scope.contains n))

/-- createTryOnSession (tryOnController.js): validation gates, garment
lookup, image upload, session insert, then the enqueue step.  The enqueue
step evaluates the addTryOnJob argument object in the handler scope; a
ReferenceError there is caught by the queue-failure catch, which marks
the session failed and answers 500 QUEUE_FAILED.  Only when the argument
object evaluates and addTryOnJob succeeds is 202 returned. -/
def createTryOnSessionHandler (req : CreateReq) (env : CreateEnv)
    (sessionId userId : String) (db : Db) : HttpResponse × Db :=
  if !req.bodyValid then ({ status := 400, code := none }, db)
  else if !req.hasFile then
    ({ status := 400, code := some "MISSING_USER_IMAGE" }, db)
  else if !req.mimetypeAllowed then
    ({ status := 400, code := some "INVALID_FILE_TYPE" }, db)
  else if !req.sizeOk then
    ({ status := 400, code := some "FILE_TOO_LARGE" }, db)
  else
    match env.garment with
    | none => ({ status := 404, code := some "GARMENT_NOT_FOUND" }, db)
    | some g =>
        match env.upload with
        | none => ({ status := 500, code := some "UPLOAD_FAILED" }, db)
        | some url =>
            if !env.createOk then
              ({ status := 500, code := some "SESSION_CREATION_FAILED" }, db)
            else
              let newSession : Session :=
                { id := sessionId, user_id := userId, garment_id := g.id,
                  original_user_image_url := some url,
                  status := SessionStatus.queued,
                  result_image_url := none, error_message := none,
                  updated_at := 0 }
              let db1 : Db := { db with sessions := db.sessions ++ [newSession] }
              match firstUnbound tryOnControllerScope addTryOnJobArgIdents with
              | some _unboundName =>
                  let uFail : UpdateData :=
                    { status := some SessionStatus.failed,
                      error_message := some (some "Failed to queue processing job") }
                  ({ status := 500, code := some "QUEUE_FAILED" },
                   { db1 with sessions :=
                       updateTryOnSession sessionId uFail db1.sessions })
              | none =>
                  if env.enqueueOk then ({ status := 202, code := none }, db1)
                  else
                    let uFail : UpdateData :=
                      { status := some SessionStatus.failed,
                        error_message := some (some "Failed to queue processing job") }
                    ({ status := 500, code := some "QUEUE_FAILED" },
                     { db1 with sessions :=
                         updateTryOnSession sessionId uFail db1.sessions })

/-- The status handlePixazoCallback stores for a resolved session, as a
function of the payload and the image download alone — it does not depend
on the session record at all (in particular not on its current status). -/
def signalStatusRaw (fetch : String → Except String String)
    (st r : Option String) : SessionStatus :=
  if st = some "completed" ∨ st = some "success" then
    if truthy r then
      match fetch (r.getD "") with
      | Except.ok _ => SessionStatus.success
      | Except.error _ => SessionStatus.failed
    else SessionStatus.failed
  else if st = some "failed" ∨ st = some "error" then SessionStatus.failed
  else if st = some "processing" ∨ st = some "pending" then
    SessionStatus.processing
  else SessionStatus.failed

/-- signalStatusRaw applied to the fields the controller extracts. -/
def signalStatus (fetch : String → Except String String)
    (c : CallbackData) : SessionStatus :=
  signalStatusRaw fetch (extractedStatus c) c.result_image_url

/-- The status a worker run leaves on the session, as a function of the
environment outcomes alone — the prior status of the session is never
consulted. -/
def workerFinalStatus (env : WorkerEnv) : SessionStatus :=
  match env.garment with
  | Except.error _ => SessionStatus.failed
  | Except.ok _ =>
      match env.apiHealth with
      | some _ => SessionStatus.failed
      | none =>
          match env.provider with
          | ProviderOutcome.result _ => SessionStatus.success
          | ProviderOutcome.callbackStarted _ _ => SessionStatus.processing
          | ProviderOutcome.failure _ => SessionStatus.failed

theorem applyUpdate_id (u : UpdateData) (s : Session) :
    (applyUpdate u s).id = s.id := rfl

theorem applyUpdate_user_id (u : UpdateData) (s : Session) :
    (applyUpdate u s).user_id = s.user_id := rfl

theorem findSession_some_id (l : List Session) (x : String) (s : Session)
    (h : findSession l x = some s) : s.id = x := by
  induction l with
  | nil => simp [findSession] at h
  | cons a t ih =>
      by_cases ha : a.id = x
      · rw [findSession, if_pos ha] at h
        cases h
        exact ha
      · rw [findSession, if_neg ha] at h
        exact ih h

theorem findSession_update (l : List Session) (tid x : String)
    (u : UpdateData) :
    findSession (updateTryOnSession tid u l) x =
      (findSession l x).map
        (fun s => if s.id = tid then applyUpdate u s else s) := by
  induction l with
  | nil => rfl
  | cons s t ih =>
      have hid : (if s.id = tid then applyUpdate u s else s).id = s.id := by
        by_cases h : s.id = tid <;> simp [h, applyUpdate_id]
      show (if (if s.id = tid then applyUpdate u s else s).id = x
              then some (if s.id = tid then applyUpdate u s else s)
              else findSession (updateTryOnSession tid u t) x) = _
      rw [hid]
      by_cases hx : s.id = x
      · simp [findSession, hx]
      · simp [findSession, hx, ih]

theorem findSession_append_fresh (l : List Session) (s : Session)
    (h : findSession l s.id = none) :
    findSession (l ++ [s]) s.id = some s := by
  induction l with
  | nil => simp [findSession]
  | cons a t ih =>
      by_cases ha : a.id = s.id
      · rw [findSession, if_pos ha] at h
        cases h
      · rw [findSession, if_neg ha] at h
        show (if a.id = s.id then some a else findSession (t ++ [s]) s.id) = some s
        rw [if_neg ha]
        exact ih h

theorem computeUpdate_status (fetch : String → Except String String)
    (now : Nat) (sess : Session) (st r e : Option String) :
    (computeUpdate fetch now sess st r e).status =
      some (signalStatusRaw fetch st r) := by
  unfold computeUpdate webhookUpdateFields signalStatusRaw
  split_ifs <;> try rfl
  cases fetch (r.getD "") <;> rfl

theorem computeUpdate_shift (fetch : String → Except String String)
    (n1 n2 : Nat) (sess : Session) (st r e : Option String) :
    computeUpdate fetch n2 sess st r e =
      { computeUpdate fetch n1 sess st r e with updated_at := some n2 } := rfl

theorem computeUpdate_sess_congr (fetch : String → Except String String)
    (now : Nat) (s1 s2 : Session) (st r e : Option String)
    (h1 : s1.id = s2.id) (h2 : s1.user_id = s2.user_id) :
    computeUpdate fetch now s1 st r e = computeUpdate fetch now s2 st r e := by
  unfold computeUpdate webhookUpdateFields resultPathFor
  rw [h1, h2]

theorem applyUpdate_status_idem (u1 u2 : UpdateData) (s : Session)
    (hs : u2.status = u1.status) :
    (applyUpdate u2 (applyUpdate u1 s)).status = (applyUpdate u1 s).status := by
  cases h : u1.status <;> simp [applyUpdate, hs, h]

theorem applyUpdate_result_idem (u1 u2 : UpdateData) (s : Session)
    (hr : u2.result_image_url = u1.result_image_url) :
    (applyUpdate u2 (applyUpdate u1 s)).result_image_url =
      (applyUpdate u1 s).result_image_url := by
  cases h : u1.result_image_url <;> simp [applyUpdate, hr, h]

theorem applyUpdate_error_idem (u1 u2 : UpdateData) (s : Session)
    (he : u2.error_message = u1.error_message) :
    (applyUpdate u2 (applyUpdate u1 s)).error_message =
      (applyUpdate u1 s).error_message := by
  cases h : u1.error_message <;> simp [applyUpdate, he, h]

/-- The update object handlePixazoCallback builds for a resolved session. -/
def handleUpdate (fetch : String → Except String String) (now : Nat)
    (c : CallbackData) (sess : Session) : UpdateData :=
  computeUpdate fetch now sess (extractedStatus c) c.result_image_url
    (extractedError c)

theorem handle_resolved (fetch : String → Except String String) (now : Nat)
    (c : CallbackData) (db : Db) (j : String) (sess : Session)
    (hj : extractedJobId c = some j) (hjne : j ≠ "")
    (hres : resolveSession db j = some sess) :
    handlePixazoCallback fetch now c db =
      (CallbackOutcome.updated sess.id (handleUpdate fetch now c sess),
       { db with sessions := updateTryOnSession sess.id (handleUpdate fetch now c sess) db.sessions }) := by
  unfold handlePixazoCallback handleUpdate
  rw [hj]
  simp [truthy, hjne, hres]

theorem resolve_parts (db : Db) (j : String) (sess : Session)
    (hres : resolveSession db j = some sess) :
    ∃ l, uniqueLink db.jobs j = some l ∧
      findSession db.sessions sess.id = some sess ∧ l.session_id = sess.id := by
  rcases hbind : uniqueLink db.jobs j with _ | l
  · unfold resolveSession at hres
    rw [hbind] at hres
    simp at hres
  · unfold resolveSession at hres
    rw [hbind] at hres
    simp at hres
    have hsid := findSession_some_id _ _ _ hres
    refine ⟨l, rfl, ?_, hsid.symm⟩
    rw [hsid]
    exact hres

theorem handle_resolved_status (fetch : String → Except String String)
    (now : Nat) (c : CallbackData) (db : Db) (j : String) (sess : Session)
    (hj : extractedJobId c = some j) (hjne : j ≠ "")
    (hres : resolveSession db j = some sess) :
    (findSession (handlePixazoCallback fetch now c db).2.sessions
        sess.id).map Session.status = some (signalStatus fetch c) := by
  rw [handle_resolved fetch now c db j sess hj hjne hres]
  rcases resolve_parts db j sess hres with ⟨l, -, hfound, -⟩
  have hif : (if sess.id = sess.id then applyUpdate (handleUpdate fetch now c sess) sess else sess)
      = applyUpdate (handleUpdate fetch now c sess) sess := if_pos rfl
  have h2 : (applyUpdate (handleUpdate fetch now c sess) sess).status = signalStatus fetch c := by
    show (handleUpdate fetch now c sess).status.getD sess.status = signalStatus fetch c
    rw [handleUpdate, computeUpdate_status]
    rfl
  rw [findSession_update, hfound, Option.map_some', hif, Option.map_some', h2]

theorem handle_resolved_again (fetch : String → Except String String)
    (now : Nat) (c : CallbackData) (db : Db) (j : String) (sess : Session)
    (hj : extractedJobId c = some j) (hjne : j ≠ "")
    (hres : resolveSession db j = some sess) :
    resolveSession (handlePixazoCallback fetch now c db).2 j =
      some (applyUpdate (handleUpdate fetch now c sess) sess) := by
  rw [handle_resolved fetch now c db j sess hj hjne hres]
  rcases resolve_parts db j sess hres with ⟨l, hlink, hfound, hsid⟩
  unfold resolveSession
  rw [show ({ db with sessions := updateTryOnSession sess.id (handleUpdate fetch now c sess) db.sessions } : Db).jobs = db.jobs from rfl]
  rw [hlink]
  simp only [Option.some_bind]
  rw [hsid, findSession_update, hfound]
  simp

theorem findSession_update_self (l : List Session) (sid : String)
    (u : UpdateData) (s : Session) (hs : findSession l sid = some s) :
    findSession (updateTryOnSession sid u l) sid = some (applyUpdate u s) := by
  rw [findSession_update, hs, Option.map_some']
  rw [if_pos (findSession_some_id _ _ _ hs)]

theorem tryOnWorker_status (env : WorkerEnv) (job : JobData) (db : Db)
    (s : Session) (hs : findSession db.sessions job.sessionId = some s) :
    (findSession (tryOnWorker env job db).2.sessions job.sessionId).map
      Session.status = some (workerFinalStatus env) := by
  have hbase := findSession_update_self db.sessions job.sessionId
    { status := some SessionStatus.processing, error_message := some none } s hs
  rcases env with ⟨g, ah, pv⟩
  rcases g with m | g
  · simp only [tryOnWorker]
    rw [findSession_update_self _ _ _ _ hbase, Option.map_some']
    rfl
  · rcases ah with _ | err
    · rcases pv with buf | ⟨jid, cb⟩ | msg <;>
        · simp only [tryOnWorker]
          rw [findSession_update_self _ _ _ _ hbase, Option.map_some']
          rfl
    · simp only [tryOnWorker]
      rw [findSession_update_self _ _ _ _ hbase, Option.map_some']
      rfl

theorem tryOnWorker_jobs_sync (env : WorkerEnv) (job : JobData) (db : Db)
    (g : Garment) (buf : String) (hg : env.garment = Except.ok g)
    (hh : env.apiHealth = none)
    (hp : env.provider = ProviderOutcome.result buf) :
    (tryOnWorker env job db).2.jobs = db.jobs := by
  rcases env with ⟨ge, ah, pv⟩
  simp at hg hh hp
  subst hg; subst hh; subst hp
  simp only [tryOnWorker]

theorem tryOnWorker_jobs_callback (env : WorkerEnv) (job : JobData) (db : Db)
    (g : Garment) (jid cb : String) (hg : env.garment = Except.ok g)
    (hh : env.apiHealth = none)
    (hp : env.provider = ProviderOutcome.callbackStarted jid cb) :
    (tryOnWorker env job db).2.jobs =
      db.jobs ++ [{ job_id := jid, session_id := job.sessionId,
                    status := "processing" }] := by
  rcases env with ⟨ge, ah, pv⟩
  simp at hg hh hp
  subst hg; subst hh; subst hp
  simp only [tryOnWorker]
  rfl

theorem pollStep_none (fetch : String → Except String String)
    (jobId : String) (sd : StatusData) (h : stillRunningPoll sd) :
    pollStep fetch jobId sd = none := by
  rcases h with ⟨h1, h2, h3, h4⟩
  have c1 : ¬(sd.status = some "completed" ∨ sd.status = some "success") := by
    rintro (h | h)
    exacts [h1 h, h2 h]
  have c2 : ¬(sd.status = some "failed" ∨ sd.status = some "error") := by
    rintro (h | h)
    exacts [h3 h, h4 h]
  unfold pollStep
  rw [if_neg c1, if_neg c2]

theorem pollLoop_timeout (fetch : String → Except String String)
    (polls : Nat → StatusData) (jobId : String)
    (h : ∀ n, stillRunningPoll (polls n)) :
    ∀ (steps i : Nat),
      pollLoop fetch polls jobId i steps = PollOutcome.thrown (timeoutMsg jobId) := by
  intro steps
  induction steps with
  | zero => intro i; rfl
  | succ k ih =>
      intro i
      show (match pollStep fetch jobId (polls i) with
            | some out => out
            | none => pollLoop fetch polls jobId (i + 1) k) =
          PollOutcome.thrown (timeoutMsg jobId)
      rw [pollStep_none fetch jobId _ (h i)]
      exact ih (i + 1)

theorem performVirtualTryOn_timeout (fetch : String → Except String String)
    (polls : Nat → StatusData) (jid : String)
    (h : ∀ n, stillRunningPoll (polls n)) :
    performVirtualTryOn fetch polls (PixazoSubmitResponse.asyncJob jid) =
      Except.error (timeoutMsg jid) := by
  show (match pollLoop fetch polls jid 0 (pixazoMaxWaitMs / pixazoPollIntervalMs) with
        | PollOutcome.image buf => Except.ok buf
        | PollOutcome.thrown m => Except.error m) = Except.error (timeoutMsg jid)
  rw [pollLoop_timeout fetch polls jid h]

/-- A fetch that always succeeds, returning the body of the given URL. -/
def okFetch : String → Except String String := fun u => Except.ok u

/-- A session that already reached the terminal success status. -/
def sessDone : Session :=
  { id := "S1", user_id := "U1", garment_id := "G1",
    original_user_image_url := some "orig", status := SessionStatus.success,
    result_image_url := some "res", error_message := none, updated_at := 0 }

/-- The same session still in processing. -/
def sessProc : Session :=
  { sessDone with status := SessionStatus.processing, result_image_url := none }

/-- A job link for session S1. -/
def linkJ1 : JobLink :=
  { job_id := "J1", session_id := "S1", status := "processing" }

/-- A database whose only session is terminal (success). -/
def dbDone : Db := { sessions := [sessDone], jobs := [linkJ1] }

/-- A database whose only session is in processing. -/
def dbProc : Db := { sessions := [sessProc], jobs := [linkJ1] }

/-- A webhook body reporting that job J1 is still processing. -/
def cbProcessing : CallbackData :=
  { job_id := some "J1", status := some "processing" }

/-- A webhook body reporting that job J1 failed. -/
def cbFailedSig : CallbackData :=
  { job_id := some "J1", status := some "failed", error := some "boom" }

/-- A webhook body reporting that job J1 completed with a result URL. -/
def cbSuccessSig : CallbackData :=
  { job_id := some "J1", status := some "completed",
    result_image_url := some "http-img" }

/-- Claim C1 counterexample: session S1 is already terminal (success), yet
a later processing webhook for its job is applied and overwrites the
terminal status back to processing, so the status is not monotonic. -/
theorem C1_counterexample :
    (findSession dbDone.sessions "S1").map Session.status
      = some SessionStatus.success ∧
    (findSession (handlePixazoCallback okFetch 5 cbProcessing dbDone).2.sessions
        "S1").map Session.status = some SessionStatus.processing := by
  exact ⟨rfl, rfl⟩

/-- Claim C1 (amended): for every webhook that resolves a session, the
stored status after handling is a function of the payload and image
download alone (signalStatus), independent of the session record and in
particular of its prior status; a processing or pending webhook therefore
rewrites even a terminal status to processing, and an unknown status
rewrites it to failed. -/
theorem C1_theorem (fetch : String → Except String String) (now : Nat)
    (c : CallbackData) (db : Db) (j : String) (sess : Session)
    (hj : extractedJobId c = some j) (hjne : j ≠ "")
    (hres : resolveSession db j = some sess) :
    (findSession (handlePixazoCallback fetch now c db).2.sessions
        sess.id).map Session.status = some (signalStatus fetch c) :=
  handle_resolved_status fetch now c db j sess hj hjne hres

/-- Claim C1 witness: the amended theorem applied to the terminal session
S1 and the processing webhook. -/
theorem C1_witness :
    (findSession (handlePixazoCallback okFetch 5 cbProcessing dbDone).2.sessions
        sessDone.id).map Session.status = some (signalStatus okFetch cbProcessing) :=
  C1_theorem okFetch 5 cbProcessing dbDone "J1" sessDone rfl (by decide) rfl

/-- Claim C2 counterexample: applying the same terminal (failed) signal
twice to the same session performs the unconditional update both times —
the second application again returns an update carrying a status
transition, not an Ignored outcome. -/
theorem C2_counterexample :
    (handlePixazoCallback okFetch 5 cbFailedSig dbProc).1
      = CallbackOutcome.updated "S1"
          { status := some SessionStatus.failed,
            error_message := some (some "boom"), updated_at := some 5 } ∧
    (handlePixazoCallback okFetch 6 cbFailedSig
        (handlePixazoCallback okFetch 5 cbFailedSig dbProc).2).1
      = CallbackOutcome.updated "S1"
          { status := some SessionStatus.failed,
            error_message := some (some "boom"), updated_at := some 6 } := by
  exact ⟨rfl, rfl⟩

/-- Claim C2 (amended): re-applying the same signal performs the
unconditional update again (the second application is still an updated
outcome carrying a status field, never an ignored one), but the persisted
status, result_image_url and error_message after the second application
equal those after the first. -/
theorem C2_theorem (fetch : String → Except String String) (now1 now2 : Nat)
    (c : CallbackData) (db : Db) (j : String) (sess : Session)
    (hj : extractedJobId c = some j) (hjne : j ≠ "")
    (hres : resolveSession db j = some sess) :
    (∃ u, (handlePixazoCallback fetch now2 c
            (handlePixazoCallback fetch now1 c db).2).1
          = CallbackOutcome.updated sess.id u ∧ u.status ≠ none) ∧
    (findSession (handlePixazoCallback fetch now2 c
        (handlePixazoCallback fetch now1 c db).2).2.sessions sess.id).map
        (fun s => (s.status, s.result_image_url, s.error_message))
      = (findSession (handlePixazoCallback fetch now1 c db).2.sessions
          sess.id).map
        (fun s => (s.status, s.result_image_url, s.error_message)) := by
  have hres1 := handle_resolved_again fetch now1 c db j sess hj hjne hres
  have h2 := handle_resolved fetch now2 c
    (handlePixazoCallback fetch now1 c db).2 j
    (applyUpdate (handleUpdate fetch now1 c sess) sess) hj hjne hres1
  have hid1 : (applyUpdate (handleUpdate fetch now1 c sess) sess).id = sess.id :=
    applyUpdate_id _ _
  have huid1 :
      (applyUpdate (handleUpdate fetch now1 c sess) sess).user_id = sess.user_id :=
    applyUpdate_user_id _ _
  have hcongr : handleUpdate fetch now2 c
      (applyUpdate (handleUpdate fetch now1 c sess) sess)
      = handleUpdate fetch now2 c sess :=
    computeUpdate_sess_congr fetch now2 _ sess _ _ _ hid1 huid1
  have hshift : handleUpdate fetch now2 c sess
      = { handleUpdate fetch now1 c sess with updated_at := some now2 } :=
    computeUpdate_shift fetch now1 now2 sess _ _ _
  have hs : (handleUpdate fetch now2 c
      (applyUpdate (handleUpdate fetch now1 c sess) sess)).status
      = (handleUpdate fetch now1 c sess).status := by
    rw [hcongr, hshift]
  have hr : (handleUpdate fetch now2 c
      (applyUpdate (handleUpdate fetch now1 c sess) sess)).result_image_url
      = (handleUpdate fetch now1 c sess).result_image_url := by
    rw [hcongr, hshift]
  have he : (handleUpdate fetch now2 c
      (applyUpdate (handleUpdate fetch now1 c sess) sess)).error_message
      = (handleUpdate fetch now1 c sess).error_message := by
    rw [hcongr, hshift]
  have hstat := computeUpdate_status fetch now1 sess (extractedStatus c)
    c.result_image_url (extractedError c)
  constructor
  · refine ⟨handleUpdate fetch now2 c
      (applyUpdate (handleUpdate fetch now1 c sess) sess), ?_, ?_⟩
    · rw [h2, hid1]
    · rw [hs]
      show (computeUpdate fetch now1 sess (extractedStatus c)
        c.result_image_url (extractedError c)).status ≠ none
      rw [hstat]
      simp
  · rcases resolve_parts _ j _ hres1 with ⟨l, -, hfound1, -⟩
    rw [hid1] at hfound1
    have hpost2 : findSession (handlePixazoCallback fetch now2 c
        (handlePixazoCallback fetch now1 c db).2).2.sessions sess.id
        = some (applyUpdate (handleUpdate fetch now2 c
            (applyUpdate (handleUpdate fetch now1 c sess) sess))
            (applyUpdate (handleUpdate fetch now1 c sess) sess)) := by
      rw [h2]
      show findSession (updateTryOnSession
        (applyUpdate (handleUpdate fetch now1 c sess) sess).id _
        (handlePixazoCallback fetch now1 c db).2.sessions) sess.id = _
      rw [hid1]
      exact findSession_update_self _ _ _ _ hfound1
    rw [hpost2, hfound1, Option.map_some', Option.map_some']
    rw [applyUpdate_status_idem _ _ _ hs, applyUpdate_result_idem _ _ _ hr,
      applyUpdate_error_idem _ _ _ he]

/-- Claim C2 witness: the amended theorem applied to the processing
session S1 and the failed webhook. -/
theorem C2_witness :
    (∃ u, (handlePixazoCallback okFetch 6 cbFailedSig
            (handlePixazoCallback okFetch 5 cbFailedSig dbProc).2).1
          = CallbackOutcome.updated sessProc.id u ∧ u.status ≠ none) ∧
    (findSession (handlePixazoCallback okFetch 6 cbFailedSig
        (handlePixazoCallback okFetch 5 cbFailedSig dbProc).2).2.sessions
        sessProc.id).map
        (fun s => (s.status, s.result_image_url, s.error_message))
      = (findSession (handlePixazoCallback okFetch 5 cbFailedSig dbProc).2.sessions
          sessProc.id).map
        (fun s => (s.status, s.result_image_url, s.error_message)) :=
  C2_theorem okFetch 5 6 cbFailedSig dbProc "J1" sessProc rfl (by decide) rfl

/-- Claim C3 counterexample: with the unconditional update, a success
signal and then a failure signal for the same session both commit: the
session first becomes success, then is overwritten to failed while the
stale result URL of the success write survives — a mixed record, and the
second application is an update, not an ignore. -/
theorem C3_counterexample :
    (findSession (handlePixazoCallback okFetch 5 cbSuccessSig dbProc).2.sessions
        "S1").map Session.status = some SessionStatus.success ∧
    (handlePixazoCallback okFetch 6 cbFailedSig
        (handlePixazoCallback okFetch 5 cbSuccessSig dbProc).2).1
      = CallbackOutcome.updated "S1"
          { status := some SessionStatus.failed,
            error_message := some (some "boom"), updated_at := some 6 } ∧
    (findSession (handlePixazoCallback okFetch 6 cbFailedSig
        (handlePixazoCallback okFetch 5 cbSuccessSig dbProc).2).2.sessions
        "S1").map (fun s => (s.status, s.result_image_url))
      = some (SessionStatus.failed,
          some (uploadImage (resultPathFor sessProc) "http-img")) := by
  exact ⟨rfl, rfl, rfl⟩

/-- Claim C3 (amended): the session write is keyed only on the session id
— it applies whatever the current status or version is — and when two
signals are applied in sequence both commit and the last writer wins: the
final status is that of the second signal. -/
theorem C3_theorem (fetch : String → Except String String) (now1 now2 : Nat)
    (c1 c2 : CallbackData) (db : Db) (j : String) (sess : Session)
    (l : List Session) (x : String) (u : UpdateData) (s : Session)
    (hfs : findSession l x = some s)
    (hj1 : extractedJobId c1 = some j) (hj2 : extractedJobId c2 = some j)
    (hjne : j ≠ "") (hres : resolveSession db j = some sess) :
    findSession (updateTryOnSession x u l) x = some (applyUpdate u s) ∧
    (findSession (handlePixazoCallback fetch now2 c2
        (handlePixazoCallback fetch now1 c1 db).2).2.sessions sess.id).map
      Session.status = some (signalStatus fetch c2) := by
  constructor
  · exact findSession_update_self l x u s hfs
  · have hres1 := handle_resolved_again fetch now1 c1 db j sess hj1 hjne hres
    have := handle_resolved_status fetch now2 c2
      (handlePixazoCallback fetch now1 c1 db).2 j
      (applyUpdate (handleUpdate fetch now1 c1 sess) sess) hj2 hjne hres1
    rw [applyUpdate_id] at this
    exact this

/-- Claim C3 witness: the amended theorem applied to the processing
session S1, the success signal and then the failure signal. -/
theorem C3_witness :
    findSession (updateTryOnSession "S1"
        { status := some SessionStatus.failed } dbProc.sessions) "S1"
      = some (applyUpdate { status := some SessionStatus.failed } sessProc) ∧
    (findSession (handlePixazoCallback okFetch 6 cbFailedSig
        (handlePixazoCallback okFetch 5 cbSuccessSig dbProc).2).2.sessions
        sessProc.id).map Session.status = some (signalStatus okFetch cbFailedSig) :=
  C3_theorem okFetch 5 6 cbSuccessSig cbFailedSig dbProc "J1" sessProc
    dbProc.sessions "S1" { status := some SessionStatus.failed } sessProc
    rfl rfl rfl (by decide) rfl

/-- A success webhook body carrying no result reference at all. -/
def cbSuccessNoResult : CallbackData :=
  { id := some "J9", status := some "success" }

/-- A completed webhook body for J1 carrying no result reference. -/
def cbCompletedNoRes : CallbackData :=
  { job_id := some "J1", status := some "completed" }

/-- Claim C4 counterexample: in the serverless webhook app, a success
webhook with no result reference, routed by the session_id query
parameter, marks the session success with a null result URL and answers
200 — the session is marked Completed without a usable artifact. -/
theorem C4_counterexample :
    (findSession (pixazoWebhookApp 7 (some "S1") cbSuccessNoResult dbProc).2.sessions
        "S1").map (fun s => (s.status, s.result_image_url))
      = some (SessionStatus.success, none) ∧
    (pixazoWebhookApp 7 (some "S1") cbSuccessNoResult dbProc).1
      = { httpStatus := 200, code := none } := by
  exact ⟨rfl, rfl⟩

/-- Claim C4 (amended): in handlePixazoCallback (the main webhook
controller) a success signal without a result_image_url does mark the
resolved session failed with the explicit missing-result error; the
serverless webhook app, however, marks the session success with a null
result (see the counterexample). -/
theorem C4_theorem (fetch : String → Except String String) (now : Nat)
    (c : CallbackData) (db : Db) (j : String) (sess : Session)
    (hj : extractedJobId c = some j) (hjne : j ≠ "")
    (hres : resolveSession db j = some sess)
    (hst : extractedStatus c = some "completed" ∨ extractedStatus c = some "success")
    (hr : truthy c.result_image_url = false) :
    (findSession (handlePixazoCallback fetch now c db).2.sessions sess.id).map
        (fun s => (s.status, s.error_message))
      = some (SessionStatus.failed,
          some "Job completed but no result image provided") := by
  rw [handle_resolved fetch now c db j sess hj hjne hres]
  rcases resolve_parts db j sess hres with ⟨l, -, hfound, -⟩
  have hu : handleUpdate fetch now c sess =
      { status := some SessionStatus.failed,
        error_message := some (some "Job completed but no result image provided"),
        updated_at := some now } := by
    unfold handleUpdate computeUpdate webhookUpdateFields
    rw [if_pos hst, if_neg (by simp [hr])]
  show (findSession (updateTryOnSession sess.id (handleUpdate fetch now c sess)
      db.sessions) sess.id).map (fun s => (s.status, s.error_message)) = _
  rw [findSession_update_self _ _ _ _ hfound, Option.map_some', hu]
  rfl

/-- Claim C4 witness: the amended theorem applied to the processing
session S1 and a completed webhook with no result reference. -/
theorem C4_witness :
    (findSession (handlePixazoCallback okFetch 8 cbCompletedNoRes dbProc).2.sessions
        sessProc.id).map (fun s => (s.status, s.error_message))
      = some (SessionStatus.failed,
          some "Job completed but no result image provided") :=
  C4_theorem okFetch 8 cbCompletedNoRes dbProc "J1" sessProc rfl (by decide)
    rfl (Or.inl rfl) rfl

/-- A completed webhook body using the undocumented-in-code result_url
alias for the result reference. -/
def cbAliasResultUrl : CallbackData :=
  { job_id := some "J1", status := some "completed",
    result_url := some "http-img" }

/-- Claim C5 counterexample: two payloads that differ only in which
documented result alias they use (result_image_url versus result_url)
normalize to different signals — the receiver reads only
result_image_url, so the aliases are not interchangeable. -/
theorem C5_counterexample :
    normalizeCallback cbSuccessSig ≠ normalizeCallback cbAliasResultUrl := by
  decide

/-- Claim C5 (amended): normalization is alias-insensitive exactly for
the pairs the code reads — job id as job_id or id, outcome as status or
state, error as error or message; the jobId, status_code, resultUrl,
result_url and error_message aliases of the spec are never read. -/
theorem C5_theorem (c : CallbackData) (v : String) (hv : v ≠ "") :
    normalizeCallback { c with job_id := some v, id := none }
      = normalizeCallback { c with job_id := none, id := some v } ∧
    normalizeCallback { c with status := some v, state := none }
      = normalizeCallback { c with status := none, state := some v } ∧
    normalizeCallback { c with error := some v, message := none }
      = normalizeCallback { c with error := none, message := some v } := by
  unfold normalizeCallback extractedJobId extractedStatus extractedError jsOr truthy
  simp [hv]

/-- Claim C5 witness: the amended theorem applied to the empty payload
and the value x. -/
theorem C5_witness :
    normalizeCallback { ({} : CallbackData) with job_id := some "x", id := none }
      = normalizeCallback { ({} : CallbackData) with job_id := none, id := some "x" } ∧
    normalizeCallback { ({} : CallbackData) with status := some "x", state := none }
      = normalizeCallback { ({} : CallbackData) with status := none, state := some "x" } ∧
    normalizeCallback { ({} : CallbackData) with error := some "x", message := none }
      = normalizeCallback { ({} : CallbackData) with error := none, message := some "x" } :=
  C5_theorem {} "x" (by decide)

/-- A database with a session but no job links at all. -/
def dbNoLinks : Db := { sessions := [sessProc], jobs := [] }

/-- A webhook body for a job JX that no link resolves. -/
def cbOrphan : CallbackData :=
  { job_id := some "JX", status := some "completed" }

/-- A webhook body for the serverless app carrying only a job id. -/
def cbOrphan7 : CallbackData :=
  { id := some "JX", status := some "processing" }

/-- Claim C6: a webhook whose job id resolves to no session (no JobLink
row and no session_id) is answered 200 by the webhook route and mutates
nothing, and the serverless app without a session_id query parameter
likewise answers 200 and mutates nothing. -/
theorem C6_theorem (fetch : String → Except String String) (now : Nat)
    (c : CallbackData) (db : Db) (sig : Option String) (raw : String)
    (j : String) (now2 : Nat) (body : CallbackData) (db2 : Db)
    (hj : extractedJobId c = some j) (hjne : j ≠ "")
    (hnolink : ∀ l ∈ db.jobs, l.job_id ≠ j)
    (hbid : truthy body.id = true) :
    webhookRoute sig raw fetch now c db
      = ({ httpStatus := 200, success := true }, db) ∧
    pixazoWebhookApp now2 none body db2
      = ({ httpStatus := 200, code := none }, db2) := by
  have hfilter : db.jobs.filter (fun l => l.job_id = j) = [] := by
    rw [List.filter_eq_nil_iff]
    intro a ha
    simp [hnolink a ha]
  have hulink : uniqueLink db.jobs j = none := by
    unfold uniqueLink
    rw [hfilter]
  have hresnone : resolveSession db j = none := by
    unfold resolveSession
    rw [hulink]
    rfl
  have hhandle : handlePixazoCallback fetch now c db
      = (CallbackOutcome.noSession j, db) := by
    unfold handlePixazoCallback
    rw [hj]
    simp [truthy, hjne, hresnone]
  constructor
  · unfold webhookRoute
    cases sig with
    | none => rw [hhandle]
    | some s =>
        simp only [validateWebhookSignature, if_true]
        rw [hhandle]
  · unfold pixazoWebhookApp
    simp only [hbid]
    simp [truthy]

/-- Claim C6 witness: the theorem applied to the orphan webhook JX on a
database without job links. -/
theorem C6_witness :
    webhookRoute none "" okFetch 0 cbOrphan dbNoLinks
      = ({ httpStatus := 200, success := true }, dbNoLinks) ∧
    pixazoWebhookApp 0 none cbOrphan7 dbNoLinks
      = ({ httpStatus := 200, code := none }, dbNoLinks) :=
  C6_theorem okFetch 0 cbOrphan dbNoLinks none "" "JX" 0 cbOrphan7 dbNoLinks
    rfl (by decide) (by simp [dbNoLinks]) rfl

/-- The S1 session after an earlier failure. -/
def sessFailed : Session :=
  { sessProc with status := SessionStatus.failed, error_message := some "old failure" }

/-- A database whose only session already failed. -/
def dbFailed : Db := { sessions := [sessFailed], jobs := [] }

/-- The S1 session still queued. -/
def sessQueued : Session := { sessProc with status := SessionStatus.queued }

/-- A database whose only session is still queued. -/
def dbQueued : Db := { sessions := [sessQueued], jobs := [] }

/-- A worker environment in which everything succeeds synchronously. -/
def envSync : WorkerEnv :=
  { garment := Except.ok { id := "G1", image_url := "gurl" },
    apiHealth := none, provider := ProviderOutcome.result "img" }

/-- The job data of a dequeued submit job for S1. -/
def jobD : JobData :=
  { sessionId := "S1", userId := "U1", garmentId := "G1",
    originalUserImageUrl := "orig", garmentImageUrl := none }

/-- Claim C7 counterexample: a dequeued job whose session is already
terminal (failed) does not make the worker exit without side effects —
the worker still calls the provider (it returns done with the uploaded
result) and overwrites the terminal status to success. -/
theorem C7_counterexample :
    (findSession dbFailed.sessions "S1").map Session.status
      = some SessionStatus.failed ∧
    (tryOnWorker envSync jobD dbFailed).1
      = WorkerResult.done (uploadImage "try-on-results/U1/S1_result.png" "img") ∧
    (findSession (tryOnWorker envSync jobD dbFailed).2.sessions "S1").map
      Session.status = some SessionStatus.success := by
  exact ⟨rfl, rfl, rfl⟩

/-- Claim C7 (amended): the worker never reads the session before
processing: whatever the prior status of the session (queued, processing
or terminal), the worker run leaves it with a status that is a function
of the environment outcomes alone (workerFinalStatus), having first
unconditionally set it to processing. -/
theorem C7_theorem (env : WorkerEnv) (job : JobData) (db : Db) (s : Session)
    (hs : findSession db.sessions job.sessionId = some s) :
    (findSession (tryOnWorker env job db).2.sessions job.sessionId).map
      Session.status = some (workerFinalStatus env) :=
  tryOnWorker_status env job db s hs

/-- Claim C7 witness: the amended theorem applied to the already-failed
session. -/
theorem C7_witness :
    (findSession (tryOnWorker envSync jobD dbFailed).2.sessions
        jobD.sessionId).map Session.status = some (workerFinalStatus envSync) :=
  C7_theorem envSync jobD dbFailed sessFailed rfl

/-- Claim C8 counterexample: in the synchronous path the worker advances
the session from queued all the way to success while creating no JobLink
at all — the Queued-to-Processing transition happens without the link,
so the two effects are not atomic or even joint. -/
theorem C8_counterexample :
    (findSession dbQueued.sessions "S1").map Session.status
      = some SessionStatus.queued ∧
    (findSession (tryOnWorker envSync jobD dbQueued).2.sessions "S1").map
      Session.status = some SessionStatus.success ∧
    (tryOnWorker envSync jobD dbQueued).2.jobs = [] := by
  exact ⟨rfl, rfl, rfl⟩

/-- Claim C8 (amended): the worker transitions the session to processing
unconditionally at start, before any provider call; the synchronous path
never creates a JobLink, the callback path creates it afterwards as a
separate plain insert, and inserting the same jobId twice yields two
link rows — no per-jobId uniqueness is enforced by the code. -/
theorem C8_theorem (env1 env2 : WorkerEnv) (job1 job2 : JobData)
    (db1 db2 : Db) (g1 g2 : Garment) (buf jid cb : String)
    (sid jid2 : String) (st : Option String) (jobs : List JobLink)
    (hg1 : env1.garment = Except.ok g1) (hh1 : env1.apiHealth = none)
    (hp1 : env1.provider = ProviderOutcome.result buf)
    (hg2 : env2.garment = Except.ok g2) (hh2 : env2.apiHealth = none)
    (hp2 : env2.provider = ProviderOutcome.callbackStarted jid cb) :
    (tryOnWorker env1 job1 db1).2.jobs = db1.jobs ∧
    (tryOnWorker env2 job2 db2).2.jobs =
      db2.jobs ++ [{ job_id := jid, session_id := job2.sessionId,
                     status := "processing" }] ∧
    ((linkJobToSession sid jid2 st (linkJobToSession sid jid2 st jobs)).filter
        (fun l => l.job_id = jid2)).length
      = (jobs.filter (fun l => l.job_id = jid2)).length + 2 := by
  refine ⟨tryOnWorker_jobs_sync env1 job1 db1 g1 buf hg1 hh1 hp1,
    tryOnWorker_jobs_callback env2 job2 db2 g2 jid cb hg2 hh2 hp2, ?_⟩
  simp [linkJobToSession, List.filter_append]

/-- A worker environment whose provider starts callback processing. -/
def envCallback : WorkerEnv :=
  { garment := Except.ok { id := "G1", image_url := "gurl" },
    apiHealth := none,
    provider := ProviderOutcome.callbackStarted "J7" "cb-url" }

/-- Claim C8 witness: the amended theorem applied to the synchronous
environment, the callback environment and a duplicate insert of J7. -/
theorem C8_witness :
    (tryOnWorker envSync jobD dbQueued).2.jobs = dbQueued.jobs ∧
    (tryOnWorker envCallback jobD dbQueued).2.jobs =
      dbQueued.jobs ++ [{ job_id := "J7", session_id := jobD.sessionId,
                          status := "processing" }] ∧
    ((linkJobToSession "S1" "J7" (some "processing")
        (linkJobToSession "S1" "J7" (some "processing") [])).filter
        (fun l => l.job_id = "J7")).length
      = (([] : List JobLink).filter (fun l => l.job_id = "J7")).length + 2 :=
  C8_theorem envSync envCallback jobD jobD dbQueued dbQueued
    { id := "G1", image_url := "gurl" } { id := "G1", image_url := "gurl" }
    "img" "J7" "cb-url" "S1" "J7" (some "processing") []
    rfl rfl rfl rfl rfl rfl

/-- Claim C9: when the provider accepts the job and its status endpoint
never returns a terminal answer, the poll loop exhausts the hard
maxWaitTime ceiling and throws the timeout error; the worker catch then
marks the session failed with that timeout message, so the actively
polled session does not stay unresolved. -/
theorem C9_theorem (fetch : String → Except String String)
    (polls : Nat → StatusData) (jid : String) (g : Garment)
    (job : JobData) (db : Db) (s : Session)
    (hs : findSession db.sessions job.sessionId = some s)
    (hpolls : ∀ n, stillRunningPoll (polls n)) :
    performVirtualTryOn fetch polls (PixazoSubmitResponse.asyncJob jid)
      = Except.error (timeoutMsg jid) ∧
    (tryOnWorker ⟨Except.ok g, none, providerOutcomeOf (performVirtualTryOn fetch polls (PixazoSubmitResponse.asyncJob jid))⟩ job db).1
      = WorkerResult.jobFailed (timeoutMsg jid) ∧
    (findSession (tryOnWorker ⟨Except.ok g, none, providerOutcomeOf (performVirtualTryOn fetch polls (PixazoSubmitResponse.asyncJob jid))⟩ job db).2.sessions job.sessionId).map
        (fun s => (s.status, s.error_message))
      = some (SessionStatus.failed, some (timeoutMsg jid)) := by
  have htime := performVirtualTryOn_timeout fetch polls jid hpolls
  rw [htime]
  refine ⟨rfl, rfl, ?_⟩
  have hbase := findSession_update_self db.sessions job.sessionId
    { status := some SessionStatus.processing, error_message := some none } s hs
  have hfinal := findSession_update_self _ job.sessionId
    { status := some SessionStatus.failed,
      error_message := some (some (timeoutMsg jid)) } _ hbase
  show (findSession (updateTryOnSession job.sessionId
      { status := some SessionStatus.failed,
        error_message := some (some (timeoutMsg jid)) }
      (updateTryOnSession job.sessionId
        { status := some SessionStatus.processing, error_message := some none }
        db.sessions)) job.sessionId).map (fun s => (s.status, s.error_message)) = _
  rw [hfinal, Option.map_some']
  rfl

/-- A status stream that always answers processing. -/
def alwaysProcessing : Nat → StatusData :=
  fun _ => { status := some "processing" }

/-- Claim C9 witness: the theorem applied to the processing session S1
and the always-processing status stream. -/
theorem C9_witness :
    performVirtualTryOn okFetch alwaysProcessing (PixazoSubmitResponse.asyncJob "J1")
      = Except.error (timeoutMsg "J1") ∧
    (tryOnWorker ⟨Except.ok { id := "G1", image_url := "gurl" }, none, providerOutcomeOf (performVirtualTryOn okFetch alwaysProcessing (PixazoSubmitResponse.asyncJob "J1"))⟩ jobD dbProc).1
      = WorkerResult.jobFailed (timeoutMsg "J1") ∧
    (findSession (tryOnWorker ⟨Except.ok { id := "G1", image_url := "gurl" }, none, providerOutcomeOf (performVirtualTryOn okFetch alwaysProcessing (PixazoSubmitResponse.asyncJob "J1"))⟩ jobD dbProc).2.sessions jobD.sessionId).map
        (fun s => (s.status, s.error_message))
      = some (SessionStatus.failed, some (timeoutMsg "J1")) :=
  C9_theorem okFetch alwaysProcessing "J1" { id := "G1", image_url := "gurl" }
    jobD dbProc sessProc rfl
    (fun _ => by simp [stillRunningPoll, alwaysProcessing])

theorem addTryOnJob_arg_unbound :
    firstUnbound tryOnControllerScope addTryOnJobArgIdents
      = some "originalUserImageUrl" := by
  decide

theorem createHandler_ne_202 (r : CreateReq) (e : CreateEnv)
    (a b : String) (d : Db) :
    (createTryOnSessionHandler r e a b d).1.status ≠ 202 := by
  unfold createTryOnSessionHandler
  rcases r with ⟨bv, hfile, mt, sz⟩
  rcases e with ⟨eg, eu, ec, en⟩
  rcases bv <;> rcases hfile <;> rcases mt <;> rcases sz <;> simp
  rcases eg with _ | g
  · simp
  · rcases eu with _ | url
    · simp
    · rcases ec <;> simp [addTryOnJob_arg_unbound]

/-- Claim C10: for every create-try-on request that passes validation,
garment lookup, upload and session creation, the enqueue step evaluates
the unbound identifier originalUserImageUrl, so the handler lands in the
queue-failure branch: the new session is updated to failed with the
queue-failure message and the response is 500 QUEUE_FAILED; and for every
request whatsoever the 202 success response is unreachable. -/
theorem C10_theorem (req req2 : CreateReq) (env env2 : CreateEnv)
    (sid uid sid2 uid2 : String) (db db2 : Db) (g : Garment) (url : String)
    (hv : req.bodyValid = true) (hfile : req.hasFile = true)
    (hm : req.mimetypeAllowed = true) (hz : req.sizeOk = true)
    (hg : env.garment = some g) (hu : env.upload = some url)
    (hc : env.createOk = true)
    (hfresh : findSession db.sessions sid = none) :
    (createTryOnSessionHandler req env sid uid db).1
      = { status := 500, code := some "QUEUE_FAILED" } ∧
    (findSession (createTryOnSessionHandler req env sid uid db).2.sessions
        sid).map (fun s => (s.status, s.error_message))
      = some (SessionStatus.failed, some "Failed to queue processing job") ∧
    (createTryOnSessionHandler req2 env2 sid2 uid2 db2).1.status ≠ 202 := by
  rcases req with ⟨bv, hfb, mt, sz⟩
  simp only at hv hfile hm hz
  subst hv; subst hfile; subst hm; subst hz
  rcases env with ⟨eg, eu, ec, en⟩
  simp only at hg hu hc
  subst hg; subst hu; subst hc
  refine ⟨rfl, ?_, createHandler_ne_202 req2 env2 sid2 uid2 db2⟩
  have happ := findSession_append_fresh db.sessions
    (⟨sid, uid, g.id, some url, SessionStatus.queued, none, none, 0⟩ : Session)
    hfresh
  have hfinal := findSession_update_self
    (db.sessions ++ [(⟨sid, uid, g.id, some url, SessionStatus.queued, none, none, 0⟩ : Session)])
    sid
    (⟨some SessionStatus.failed, none, some (some "Failed to queue processing job"), none⟩ : UpdateData)
    _ happ
  show (findSession (updateTryOnSession sid (⟨some SessionStatus.failed, none, some (some "Failed to queue processing job"), none⟩ : UpdateData) (db.sessions ++ [(⟨sid, uid, g.id, some url, SessionStatus.queued, none, none, 0⟩ : Session)])) sid).map (fun s => (s.status, s.error_message)) = some (SessionStatus.failed, some "Failed to queue processing job")
  rw [hfinal, Option.map_some']
  rfl

/-- A fully valid create request. -/
def reqOk : CreateReq := ⟨true, true, true, true⟩

/-- A create environment in which every external call succeeds. -/
def envOk : CreateEnv := ⟨some ⟨"G1", "gurl"⟩, some "u-url", true, true⟩

/-- An empty database. -/
def dbEmpty : Db := ⟨[], []⟩

/-- Claim C10 witness: the theorem applied to a fully valid request on an
empty database. -/
theorem C10_witness :
    (createTryOnSessionHandler reqOk envOk "NS1" "U9" dbEmpty).1
      = { status := 500, code := some "QUEUE_FAILED" } ∧
    (findSession (createTryOnSessionHandler reqOk envOk "NS1" "U9" dbEmpty).2.sessions
        "NS1").map (fun s => (s.status, s.error_message))
      = some (SessionStatus.failed, some "Failed to queue processing job") ∧
    (createTryOnSessionHandler reqOk envOk "NS1" "U9" dbEmpty).1.status ≠ 202 :=
  C10_theorem reqOk reqOk envOk envOk "NS1" "U9" "NS1" "U9" dbEmpty dbEmpty
    ⟨"G1", "gurl"⟩ "u-url" rfl rfl rfl rfl rfl rfl rfl rfl

end Vton
